import Mathlib

/-!
Verification of the pypipr phase-fitting subsystem
(src/pypipr/analysis/fitting/base_fit.py, phase_fits.py, pupil_fit.py).

Shallow embedding conventions:
* numpy float64 scalars are modelled by PFloat: a rational number, one of the
  two infinities, or NaN.  Comparisons follow IEEE semantics (every comparison
  with NaN is false); addition, negation and multiplication propagate NaN and
  handle the infinities the way numpy does for the operations the code uses.
* numpy 1-d arrays are List PFloat.  Boolean-mask indexing in numpy copies, so
  masked slices are plain value lists.
* Python exceptions are the error side of Except PyError; warnings.warn calls
  are collected in a List Warning result component.
* scipy.optimize.curve_fit is abstracted by an Optimizer argument: a function
  of the model tag, the xdata actually passed, the ydata actually passed and
  the initial guess p0, returning either fitted parameters, a RuntimeError
  (the convergence failure curve_fit reports), or some other exception.
* np.exp on rationals is abstracted by a parameter eq : Rat -> Rat; the
  special values follow numpy: exp(nan) = nan, exp(inf) = inf, exp(-inf) = 0.
  For the asymptotic statements about the redilation model a second embedding
  over the reals with Real.exp is used.
-/

/-- Rational addition written through mkRat, so that it reduces inside the
kernel; ratAdd_eq below proves it equal to ordinary addition on the rationals. -/
def ratAdd (a b : ℚ) : ℚ := mkRat (a.num * b.den + b.num * a.den) (a.den * b.den)

/-- Rational multiplication written through mkRat; ratMul_eq below proves it
equal to ordinary multiplication on the rationals. -/
def ratMul (a b : ℚ) : ℚ := mkRat (a.num * b.num) (a.den * b.den)

/-- Rational negation written through mkRat; ratNeg_eq below proves it equal
to ordinary negation on the rationals. -/
def ratNeg (a : ℚ) : ℚ := mkRat (-a.num) a.den

/-- A numpy float64 value: NaN, +inf, -inf, or a finite value (as a rational). -/
inductive PFloat where
  | nan : PFloat
  | inf : PFloat
  | ninf : PFloat
  | val : ℚ → PFloat
deriving DecidableEq, Repr

namespace PFloat

/-- IEEE strict less-than: any comparison involving NaN is false. -/
def blt : PFloat → PFloat → Bool
  | nan, _ => false
  | _, nan => false
  | ninf, ninf => false
  | ninf, _ => true
  | _, ninf => false
  | inf, _ => false
  | val _, inf => true
  | val p, val q => p < q

/-- IEEE less-or-equal: any comparison involving NaN is false. -/
def ble : PFloat → PFloat → Bool
  | nan, _ => false
  | _, nan => false
  | ninf, _ => true
  | _, ninf => false
  | _, inf => true
  | inf, val _ => false
  | val p, val q => p ≤ q

/-- IEEE addition on the modelled values; inf + (-inf) = nan, NaN propagates. -/
def add : PFloat → PFloat → PFloat
  | nan, _ => nan
  | _, nan => nan
  | inf, ninf => nan
  | ninf, inf => nan
  | inf, _ => inf
  | _, inf => inf
  | ninf, _ => ninf
  | _, ninf => ninf
  | val p, val q => val (ratAdd p q)

/-- IEEE negation. -/
def neg : PFloat → PFloat
  | nan => nan
  | inf => ninf
  | ninf => inf
  | val q => val (ratNeg q)

/-- IEEE multiplication; 0 * inf = nan, NaN propagates, signs as usual. -/
def mul : PFloat → PFloat → PFloat
  | nan, _ => nan
  | _, nan => nan
  | inf, inf => inf
  | inf, ninf => ninf
  | ninf, inf => ninf
  | ninf, ninf => inf
  | inf, val q => if 0 < q then inf else if q < 0 then ninf else nan
  | val q, inf => if 0 < q then inf else if q < 0 then ninf else nan
  | ninf, val q => if 0 < q then ninf else if q < 0 then inf else nan
  | val q, ninf => if 0 < q then ninf else if q < 0 then inf else nan
  | val p, val q => val (ratMul p q)

instance : Add PFloat := ⟨PFloat.add⟩
instance : Neg PFloat := ⟨PFloat.neg⟩
instance : Mul PFloat := ⟨PFloat.mul⟩

/-- Subtraction, derived as in IEEE from addition and negation. -/
def sub (x y : PFloat) : PFloat := x + (-y)

instance : Sub PFloat := ⟨PFloat.sub⟩

end PFloat

/-- The numpy exp lifted to PFloat, abstracting the finite case by a supplied
rational approximation eq; the special values follow numpy. -/
def PFloat.expF (eq : ℚ → ℚ) : PFloat → PFloat
  | .nan => .nan
  | .inf => .inf
  | .ninf => .val 0
  | .val q => .val (eq q)

/-- The Python exceptions raised by the embedded code. -/
inductive PyError where
  | valueError : String → PyError
  | attributeError : PyError
  | typeError : PyError
  | notImplementedError : PyError
deriving DecidableEq, Repr

/-- The warnings.warn calls the embedded code can emit during fitting. -/
inductive Warning where
  | notEnoughData : Warning
  | fitFailed : Warning
  | brokenConstrict : Warning
  | sustainNaN : Warning
deriving DecidableEq, Repr

/-- Outcome of one scipy.optimize.curve_fit call: fitted parameters, a
RuntimeError (reported convergence failure), or some other exception. -/
inductive OptOutcome where
  | success : List PFloat → OptOutcome
  | runtimeError : OptOutcome
  | raises : PyError → OptOutcome
deriving DecidableEq, Repr

/-- The tag of the concrete BaseFit subclass (phase_fits.py). -/
inductive Phase where
  | baseline : Phase
  | constrict : Phase
  | sustain : Phase
  | redilation : Phase
deriving DecidableEq, Repr

/-- Abstraction of scipy.optimize.curve_fit: given the model tag, the xdata
and ydata arrays the code passes, and the initial guess p0, produce an
outcome.  The embedding threads the actual arguments of the call so that
theorems can observe what the code hands to the optimizer. -/
def Optimizer : Type :=
  Phase → List PFloat → List PFloat → Option (List PFloat) → OptOutcome

/-- The get_param_names overrides of the four subclasses (phase_fits.py). -/
def Phase.paramNames : Phase → List String
  | .baseline => ["c"]
  | .constrict => ["m", "t", "c"]
  | .sustain => ["m", "c"]
  | .redilation => ["s", "k", "p"]

/-- List of np.nan of the length of a phase parameter vector: the value of
the expression [np.nan] * len(self.get_param_names()). -/
def Phase.nanFill (ph : Phase) : List PFloat :=
  List.replicate ph.paramNames.length PFloat.nan

/-- The static _model_function of each subclass (phase_fits.py), evaluated at
one scalar (all four numpy implementations are elementwise maps).  A call with
a parameter tuple of the wrong arity is a Python TypeError.
  baseline   (line 38): np.full_like(time_data, c)
  constrict  (line 85): m * (time_data + t) + c
  sustain    (line 131): m * time_data + c
  redilation (line 178): -s * np.exp(-k * time_data) + p -/
def Phase.modelFunction (eq : ℚ → ℚ) : Phase → List PFloat → PFloat → Except PyError PFloat
  | .baseline, [c], _ => .ok c
  | .constrict, [m, t, c], x => .ok (m * (x + t) + c)
  | .sustain, [m, c], x => .ok (m * x + c)
  | .redilation, [s, k, p], x => .ok (-s * PFloat.expF eq (-k * x) + p)
  | _, _, _ => .error .typeError

/-- The attribute state of a BaseFit instance after __init__ (base_fit.py).
params models the _params attribute, which __init__ never sets: none means
the attribute does not exist, so reading it raises AttributeError. -/
structure FitState where
  phase : Phase
  start_time : PFloat
  end_time : PFloat
  time_data : List PFloat
  size : List PFloat
  timeOffset : PFloat
  params : Option (List PFloat)
deriving DecidableEq, Repr

namespace BaseFit

/-- BaseFit.__init__ (base_fit.py lines 116-127): reject missing bounds with
NotImplementedError, store the bounds, raise ValueError on a length mismatch,
mask both arrays to start_time <= t <= end_time (boolean-mask indexing copies,
so the state holds value lists), and set the time offset to start_time.
The _params attribute is not assigned. -/
def init (phase : Phase) (time_data size : List PFloat)
    (start_time end_time : Option PFloat) : Except PyError FitState :=
  match start_time, end_time with
  | some s, some e =>
    if time_data.length ≠ size.length then
      .error (.valueError "time and size must have the same length")
    else
      let pairs := (time_data.zip size).filter
        (fun p => PFloat.ble s p.1 && PFloat.ble p.1 e)
      .ok { phase := phase
            start_time := s
            end_time := e
            time_data := pairs.map Prod.fst
            size := pairs.map Prod.snd
            timeOffset := s
            params := none }
  | _, _ => .error .notImplementedError

/-- BaseFit.get_params (line 161): reading _params raises AttributeError when
no _set_params call has happened yet. -/
def get_params (st : FitState) : Except PyError (List PFloat) :=
  match st.params with
  | none => .error .attributeError
  | some ps => .ok ps

/-- BaseFit._set_params (line 164). -/
def setParams (st : FitState) (ps : List PFloat) : FitState :=
  { st with params := some ps }

/-- BaseFit.predict (lines 223-233) at one scalar query time: the offset is
ADDED to the query time before the model function is applied. -/
def predictScalar (eq : ℚ → ℚ) (st : FitState) (t : PFloat) : Except PyError PFloat := do
  let ps ← get_params st
  st.phase.modelFunction eq ps (t + st.timeOffset)

/-- BaseFit.predict on an array: elementwise application of the model to
time_data + offset (all four model functions are elementwise). -/
def predictList (eq : ℚ → ℚ) (st : FitState) (ts : List PFloat) :
    Except PyError (List PFloat) :=
  ts.foldrM (fun t acc => do
    let v ← predictScalar eq st t
    pure (v :: acc)) []

/-- BaseFit.get_size override (lines 137-139): it does NOT return the stored
observed sizes; it returns self.predict(self.get_time()). -/
def get_size (eq : ℚ → ℚ) (st : FitState) : Except PyError (List PFloat) :=
  predictList eq st st.time_data

/-- The xdata the fitting code builds (line 212): self.get_time() plus the
stored time offset. -/
def fitXdata (st : FitState) : List PFloat :=
  st.time_data.map (fun t => t + st.timeOffset)

/-- BaseFit._fit_with_p0 (lines 190-217): evaluate self.get_size() (which can
raise), skip with a warning and a NaN fill when fewer than 3 points, otherwise
call curve_fit on (time + offset, get_size()) and either store the result,
or catch a RuntimeError with a warning and a NaN fill; any other exception
propagates.  kwargs handling (p0 insertion, nan_policy default) only
configures the optimizer call and is part of the Optimizer abstraction. -/
def fitWithP0 (eq : ℚ → ℚ) (cf : Optimizer) (st : FitState)
    (p0 : Option (List PFloat)) : Except PyError (FitState × List Warning) := do
  let ydata ← get_size eq st
  if ydata.length < 3 then
    pure (setParams st st.phase.nanFill, [Warning.notEnoughData])
  else
    match cf st.phase (fitXdata st) ydata p0 with
    | .success popt => pure (setParams st popt, [])
    | .runtimeError => pure (setParams st st.phase.nanFill, [Warning.fitFailed])
    | .raises e => .error e

end BaseFit

/-- FitBaseline.fit (phase_fits.py lines 50-65): p0 is (baseline_estimate,)
unless the estimate is None; the default estimate is 1. -/
def FitBaseline.fitF (eq : ℚ → ℚ) (cf : Optimizer) (st : FitState)
    (baseline_estimate : Option PFloat) : Except PyError (FitState × List Warning) :=
  BaseFit.fitWithP0 eq cf st (baseline_estimate.map (fun c => [c]))

/-- FitConstrict.fit (phase_fits.py lines 96-113): run _fit_with_p0, then warn
that the implementation is broken and overwrite the parameters with NaN. -/
def FitConstrict.fitF (eq : ℚ → ℚ) (cf : Optimizer) (st : FitState)
    (initial_estimate : Option (List PFloat)) :
    Except PyError (FitState × List Warning) := do
  let (st1, ws) ← BaseFit.fitWithP0 eq cf st initial_estimate
  pure (BaseFit.setParams st1 st1.phase.nanFill, ws ++ [Warning.brokenConstrict])

/-- FitSustain.fit (phase_fits.py lines 143-155). -/
def FitSustain.fitF (eq : ℚ → ℚ) (cf : Optimizer) (st : FitState)
    (estimate : Option (List PFloat)) : Except PyError (FitState × List Warning) :=
  BaseFit.fitWithP0 eq cf st estimate

/-- FitRedilation.fit (phase_fits.py lines 190-202). -/
def FitRedilation.fitF (eq : ℚ → ℚ) (cf : Optimizer) (st : FitState)
    (estimate : Option (List PFloat)) : Except PyError (FitState × List Warning) :=
  BaseFit.fitWithP0 eq cf st estimate

namespace PupilFit

/-- PupilFit.__init__ lines 69-71: a measurement without a light stimulus is
rejected with ValueError before anything else happens. -/
def checkStimulus (stimulus : Option (PFloat × PFloat)) :
    Except PyError (PFloat × PFloat) :=
  match stimulus with
  | none => .error (.valueError "Light stimulus not set. Cannot setup fits.")
  | some ab => .ok ab

/-- PupilFit._setup_fits (pupil_fit.py lines 93-115): derive the four phase
windows from the stimulus interval (a, b) and construct the four phase fits:
baseline on (-inf, a], constrict on [a, b], sustain on the SAME [a, b],
redilation on [b, inf). -/
def setupFits (time_data size : List PFloat) (a b : PFloat) :
    Except PyError (FitState × FitState × FitState × FitState) := do
  let bl ← BaseFit.init .baseline time_data size (some .ninf) (some a)
  let cs ← BaseFit.init .constrict time_data size (some a) (some b)
  let su ← BaseFit.init .sustain time_data size (some a) (some b)
  let rd ← BaseFit.init .redilation time_data size (some b) (some .inf)
  pure (bl, cs, su, rd)

/-- PupilFit._fit_all (pupil_fit.py lines 117-124): fit the four phases with
their default initial estimates, then overwrite the sustain parameters with
NaN and warn that the automatic sustain fit is not implemented. -/
def fitAll (eq : ℚ → ℚ) (cf : Optimizer) (bl cs su rd : FitState) :
    Except PyError ((FitState × FitState × FitState × FitState) × List Warning) := do
  let (bl1, w1) ← FitBaseline.fitF eq cf bl (some (.val 1))
  let (cs1, w2) ← FitConstrict.fitF eq cf cs
    (some [.val (mkRat 1 2), .val (mkRat 1 5), .val 1])
  let (su1, w3) ← FitSustain.fitF eq cf su
    (some [.val (mkRat 1 200), .val (mkRat 7 10)])
  let su2 := BaseFit.setParams su1 su1.phase.nanFill
  let (rd1, w4) ← FitRedilation.fitF eq cf rd
    (some [.val (mkRat 7 10), .val (mkRat 3 5), .val 1])
  pure ((bl1, cs1, su2, rd1), w1 ++ w2 ++ w3 ++ [Warning.sustainNaN] ++ w4)

/-- The per-fit membership mask of PupilFit.predict: (end > t) & (t >= start),
a half-open window test that is false whenever t is NaN. -/
def maskB (st : FitState) (t : PFloat) : Bool :=
  PFloat.blt t st.end_time && PFloat.ble st.start_time t

/-- One masked-assignment step of PupilFit.predict, elementwise: positions
whose time matches the window receive fit.predict of that time, the others
keep their previous value.  This models size[mask] = fit.predict(time[mask])
(valid because every _model_function is an elementwise map). -/
def applyFitList (eq : ℚ → ℚ) (st : FitState) :
    List PFloat → List PFloat → Except PyError (List PFloat)
  | [], _ => .ok []
  | _ :: _, [] => .ok []
  | t :: ts, old :: olds => do
    let v ← if maskB st t then BaseFit.predictScalar eq st t else pure old
    let rest ← applyFitList eq st ts olds
    pure (v :: rest)

/-- One phase block of PupilFit.predict including the np.any guard: when no
query time matches the window, fit.predict is not called at all. -/
def applyFit (eq : ℚ → ℚ) (st : FitState) (ts acc : List PFloat) :
    Except PyError (List PFloat) :=
  if ts.any (maskB st) then applyFitList eq st ts acc else .ok acc

/-- PupilFit.predict (pupil_fit.py lines 134-181): start from an all-NaN
result and apply the baseline, constriction, sustained and redilation blocks
in that order, each overwriting the positions its window matches. -/
def predict (eq : ℚ → ℚ) (bl cs su rd : FitState) (ts : List PFloat) :
    Except PyError (List PFloat) := do
  let s0 := ts.map (fun _ => PFloat.nan)
  let s1 ← applyFit eq bl ts s0
  let s2 ← applyFit eq cs ts s1
  let s3 ← applyFit eq su ts s2
  applyFit eq rd ts s3

/-- The value-level part of PupilFit.__init__ (pupil_fit.py lines 63-76):
check the stimulus, build the four phase fits, fit them all.  The aliasing
behaviour of the array attributes is modelled separately at the heap level. -/
def initV (eq : ℚ → ℚ) (cf : Optimizer) (time_data size : List PFloat)
    (stimulus : Option (PFloat × PFloat)) :
    Except PyError ((FitState × FitState × FitState × FitState) × List Warning) := do
  let (a, b) ← checkStimulus stimulus
  let (bl, cs, su, rd) ← setupFits time_data size a b
  fitAll eq cf bl cs su rd

end PupilFit

/-!
Heap-level model of array ownership, for the copy-versus-alias behaviour of
the constructors.  A numpy array is a reference (with its dtype recorded)
into a heap of buffers.  .copy() always allocates; np.asarray(x, float64)
returns the SAME array object when x is already float64, otherwise a
converted copy; boolean-mask indexing always allocates (hence the FitState
value lists above).
-/

/-- A numpy ndarray object: a buffer reference plus whether its dtype is
float64. -/
structure NpArray where
  ref : Nat
  f64 : Bool
deriving DecidableEq, Repr

/-- The buffer heap. -/
structure Heap where
  bufs : List (List PFloat)
deriving DecidableEq, Repr

/-- Read the buffer of an array. -/
def Heap.read (h : Heap) (a : NpArray) : List PFloat :=
  h.bufs.getD a.ref []

/-- Allocate a fresh buffer holding the given values. -/
def Heap.alloc (h : Heap) (v : List PFloat) (f64 : Bool) : Heap × NpArray :=
  (⟨h.bufs ++ [v]⟩, ⟨h.bufs.length, f64⟩)

/-- Mutate the buffer of an array in place. -/
def Heap.write (h : Heap) (a : NpArray) (v : List PFloat) : Heap :=
  ⟨h.bufs.set a.ref v⟩

/-- ndarray.copy(): a fresh buffer with the same contents and dtype. -/
def npCopy (h : Heap) (a : NpArray) : Heap × NpArray :=
  h.alloc (h.read a) a.f64

/-- np.asarray(a, dtype=np.float64): aliases a when it is already float64,
otherwise allocates a converted copy. -/
def npAsarrayF64 (h : Heap) (a : NpArray) : Heap × NpArray :=
  if a.f64 then (h, a) else h.alloc (h.read a) true

/-- The attributes of a PupilMeasurement handed to PupilFit: its two array
objects and its optional light stimulus interval. -/
structure MeasurementH where
  timeArr : NpArray
  sizeArr : NpArray
  stimulus : Option (PFloat × PFloat)
deriving DecidableEq, Repr

/-- The array-valued attributes PupilFit.__init__ has installed by the end of
_setup_fits (pupil_fit.py lines 69-75), before _fit_all runs. -/
structure PupilFitCoreH where
  stimulus : PFloat × PFloat
  pmTime : NpArray
  pmSize : NpArray
  timeArr : NpArray
  fits : FitState × FitState × FitState × FitState
deriving DecidableEq, Repr

/-- The attribute-building part of PupilFit.__init__ at the heap level
(pupil_fit.py lines 63-76): check the stimulus; deep-copy the measurement
into self.pupil_measurement (fresh buffers); set self.time_data with
np.asarray(pupil_measurement.get_time(), float64) -- note the argument is the
ORIGINAL measurement object, so for a float64 time buffer this aliases it;
then _setup_fits reads self.time_data and the COPY's size buffer.  The final
_fit_all step is modelled separately by PupilFit.fitAll. -/
def PupilFit.initCoreH (h : Heap) (m : MeasurementH) :
    Except PyError (Heap × PupilFitCoreH) := do
  let ab ← PupilFit.checkStimulus m.stimulus
  let (h1, pmT) := npCopy h m.timeArr
  let (h2, pmS) := npCopy h1 m.sizeArr
  let (h3, tArr) := npAsarrayF64 h2 m.timeArr
  let fits ← PupilFit.setupFits (h3.read tArr) (h3.read pmS) ab.1 ab.2
  pure (h3, { stimulus := ab, pmTime := pmT, pmSize := pmS,
              timeArr := tArr, fits := fits })

/-!
Real-valued embedding of the redilation model function, for the asymptotic
claims: here the float arithmetic is idealised over the reals, with np.exp
as Real.exp.
-/

/-- FitRedilation._model_function (phase_fits.py line 178) over the reals:
the code computes -s * exp(-k * x) + p. -/
noncomputable def FitRedilation.modelFunctionR (s k p x : ℝ) : ℝ :=
  -s * Real.exp (-k * x) + p

/-- Modelled from the spec formula table, for comparison with the code: the
spec (section 4.1 and section 8) writes the redilation model as
y = -s * exp(k * x) + p. -/
noncomputable def specRedilationModelR (s k p x : ℝ) : ℝ :=
  -s * Real.exp (k * x) + p

/-!
Concrete instantiations used by witnesses and counterexamples.
-/

/-- The identity as the rational exp approximation: the structural theorems
hold for every eq, and witnesses instantiate it with this one. -/
def eqId : ℚ → ℚ := fun q => q

/-- An optimizer that always reports a convergence failure (RuntimeError),
the scenario of the fit-divergence claims. -/
def divergeCf : Optimizer := fun _ _ _ _ => .runtimeError

/-- An optimizer that returns its ydata argument as the fitted parameters,
used to observe which data the code actually fits against. -/
def echoCf : Optimizer := fun _ _ ydata _ => .success ydata

/-- An optimizer that always succeeds with the two-element vector (1, 2). -/
def okCf2 : Optimizer := fun _ _ _ _ => .success [.val 1, .val 2]

/-- The input of the first passing scenario of
src/tests/analysis/fitting/phases/test_baseline.py: time from -12 to 2,
all sizes 1, baseline window -10 to 0. -/
def tbTime : List PFloat :=
  [.val (-12), .val (-10), .val (-8), .val (-6), .val (-4), .val (-2), .val 0, .val 2]

/-- Sizes of the test_baseline scenario. -/
def tbSize : List PFloat :=
  [.val 1, .val 1, .val 1, .val 1, .val 1, .val 1, .val 1, .val 1]

/-- A sustain-phase state with parameters already installed via _set_params,
three in-window data points and offset 0: a state whose get_size() evaluates,
so that the fitting pipeline can actually reach the optimizer. -/
def demoSustain : FitState :=
  { phase := .sustain
    start_time := .val 0
    end_time := .val 10
    time_data := [.val 0, .val 1, .val 2]
    size := [.val 5, .val 6, .val 7]
    timeOffset := .val 0
    params := some [.val 1, .val 0] }

/-- A baseline-phase state with parameters installed, for the composite
fit-all witness. -/
def demoBaselineSt : FitState :=
  { phase := .baseline
    start_time := .ninf
    end_time := .val 1
    time_data := [.val 0, .val 1]
    size := [.val 5, .val 5]
    timeOffset := .ninf
    params := some [.val 5] }

/-- A constrict-phase state with parameters installed. -/
def demoConstrictSt : FitState :=
  { phase := .constrict
    start_time := .val 1
    end_time := .val 2
    time_data := [.val 1]
    size := [.val 4]
    timeOffset := .val 1
    params := some [.val 1, .val 0, .val 0] }

/-- A redilation-phase state with parameters installed. -/
def demoRedilationSt : FitState :=
  { phase := .redilation
    start_time := .val 2
    end_time := .inf
    time_data := [.val 3]
    size := [.val 5]
    timeOffset := .val 2
    params := some [.val 1, .val 1, .val 5] }

/-- A heap with two float64 buffers: the internal time and size buffers of a
source measurement. -/
def demoHeap : Heap := ⟨[[.val 0, .val 1, .val 2], [.val 5, .val 5, .val 5]]⟩

/-- The source measurement over demoHeap, with stimulus interval (1, 2). -/
def demoMeas : MeasurementH :=
  { timeArr := ⟨0, true⟩, sizeArr := ⟨1, true⟩, stimulus := some (.val 1, .val 2) }

/-- Read back the stored time buffer of a constructed composite fit, before
and after an in-place write of value wv to buffer wArr. -/
def pfTimeReadback (r : Except PyError (Heap × PupilFitCoreH))
    (wArr : NpArray) (wv : List PFloat) : Option (List PFloat × List PFloat) :=
  match r with
  | .ok (h, pf) => some (h.read pf.timeArr, (h.write wArr wv).read pf.timeArr)
  | .error _ => none

/-- An optimizer that always succeeds with a vector of the arity declared for
the phase being fitted, as scipy does when given a p0 of that arity. -/
def arityCf : Optimizer := fun ph _ _ _ => .success ph.nanFill

/-- Time data of the composite-dispatch witness. -/
def demoTime : List PFloat := [.val 0, .val 1, .val 3]

/-- Size data of the composite-dispatch witness. -/
def demoSize : List PFloat := [.val 5, .val 5, .val 5]

/-- The baseline state _setup_fits builds from demoTime/demoSize with
stimulus (1, 2). -/
def demoBl : FitState :=
  ⟨.baseline, .ninf, .val 1, [.val 0, .val 1], [.val 5, .val 5], .ninf, none⟩

/-- The constrict state of the dispatch witness. -/
def demoCs : FitState :=
  ⟨.constrict, .val 1, .val 2, [.val 1], [.val 5], .val 1, none⟩

/-- The sustain state of the dispatch witness. -/
def demoSu : FitState :=
  ⟨.sustain, .val 1, .val 2, [.val 1], [.val 5], .val 1, none⟩

/-- The redilation state of the dispatch witness. -/
def demoRd : FitState :=
  ⟨.redilation, .val 2, .inf, [.val 3], [.val 5], .val 2, none⟩

/-- The constrict state the heap-level constructor builds over demoHeap. -/
def demoCsA : FitState :=
  ⟨.constrict, .val 1, .val 2, [.val 1, .val 2], [.val 5, .val 5], .val 1, none⟩

/-- The sustain state the heap-level constructor builds over demoHeap. -/
def demoSuA : FitState :=
  ⟨.sustain, .val 1, .val 2, [.val 1, .val 2], [.val 5, .val 5], .val 1, none⟩

/-- The redilation state the heap-level constructor builds over demoHeap. -/
def demoRdA : FitState :=
  ⟨.redilation, .val 2, .inf, [.val 2], [.val 5], .val 2, none⟩

/-- The heap after PupilFit attribute building over demoHeap: the original
two buffers plus the two deep-copy buffers. -/
def demoHeapAfter : Heap :=
  ⟨[[.val 0, .val 1, .val 2], [.val 5, .val 5, .val 5],
    [.val 0, .val 1, .val 2], [.val 5, .val 5, .val 5]]⟩

/-- The composite attribute state built over demoHeap: note timeArr is the
source measurement's own buffer 0. -/
def demoPf : PupilFitCoreH :=
  { stimulus := (.val 1, .val 2)
    pmTime := ⟨2, true⟩
    pmSize := ⟨3, true⟩
    timeArr := ⟨0, true⟩
    fits := (demoBl, demoCsA, demoSuA, demoRdA) }

/-- Decidable equality of Except results, so that closed runs of the
embedded code can be compared by decide. -/
instance exceptDecEq {e a : Type} [DecidableEq e] [DecidableEq a] :
    DecidableEq (Except e a) := fun x y =>
  match x, y with
  | .ok u, .ok v =>
    if h : u = v then .isTrue (by rw [h]) else
      .isFalse (by intro hc; cases hc; exact h rfl)
  | .error u, .error v =>
    if h : u = v then .isTrue (by rw [h]) else
      .isFalse (by intro hc; cases hc; exact h rfl)
  | .ok _, .error _ => .isFalse (by intro hc; cases hc)
  | .error _, .ok _ => .isFalse (by intro hc; cases hc)

/-!
Helper lemmas shared by the claim proofs.
-/

lemma ratAdd_eq (a b : ℚ) : ratAdd a b = a + b := by
  unfold ratAdd
  rw [Rat.mkRat_eq_div]
  push_cast
  conv_rhs => rw [← Rat.num_div_den a, ← Rat.num_div_den b]
  rw [div_add_div _ _ (by exact_mod_cast a.den_nz) (by exact_mod_cast b.den_nz)]
  ring_nf

lemma ratMul_eq (a b : ℚ) : ratMul a b = a * b := by
  unfold ratMul
  rw [Rat.mkRat_eq_div]
  conv_rhs => rw [← Rat.num_div_den a, ← Rat.num_div_den b]
  rw [div_mul_div_comm]
  push_cast
  ring_nf

lemma ratNeg_eq (a : ℚ) : ratNeg a = -a := by
  unfold ratNeg
  rw [Rat.mkRat_eq_div]
  conv_rhs => rw [← Rat.num_div_den a]
  push_cast
  ring_nf

lemma Phase.nanFill_length (ph : Phase) : ph.nanFill.length = ph.paramNames.length := by
  simp [Phase.nanFill]

lemma BaseFit.get_params_setParams (st : FitState) (ps : List PFloat) :
    BaseFit.get_params (BaseFit.setParams st ps) = .ok ps := rfl

lemma BaseFit.setParams_phase (st : FitState) (ps : List PFloat) :
    (BaseFit.setParams st ps).phase = st.phase := rfl

lemma BaseFit.init_ok_fields {phase : Phase} {time_data size : List PFloat}
    {s e : PFloat} {st : FitState}
    (h : BaseFit.init phase time_data size (some s) (some e) = .ok st) :
    st.phase = phase ∧ st.start_time = s ∧ st.end_time = e ∧ st.timeOffset = s := by
  unfold BaseFit.init at h
  by_cases hl : time_data.length = size.length
  · simp only [hl, ne_eq, not_true_eq_false, if_false, ite_false, if_neg,
      Except.ok.injEq] at h
    · subst h
      exact ⟨rfl, rfl, rfl, rfl⟩
  · simp [hl] at h

lemma BaseFit.fitWithP0_ok_phase {eq : ℚ → ℚ} {cf : Optimizer} {st : FitState}
    {p0 : Option (List PFloat)} {st2 : FitState} {ws : List Warning}
    (h : BaseFit.fitWithP0 eq cf st p0 = .ok (st2, ws)) : st2.phase = st.phase := by
  unfold BaseFit.fitWithP0 at h
  cases hg : BaseFit.get_size eq st with
  | error e => rw [hg] at h; exact absurd h (by simp [Bind.bind, Except.bind])
  | ok ydata =>
    rw [hg] at h
    simp only [Bind.bind, Except.bind] at h
    split at h
    · simp only [Pure.pure, Except.pure, Except.ok.injEq, Prod.mk.injEq] at h
      obtain ⟨h1, _⟩ := h
      rw [← h1]
      rfl
    · split at h
      · simp only [Pure.pure, Except.pure, Except.ok.injEq, Prod.mk.injEq] at h
        obtain ⟨h1, _⟩ := h
        rw [← h1]
        rfl
      · simp only [Pure.pure, Except.pure, Except.ok.injEq, Prod.mk.injEq] at h
        obtain ⟨h1, _⟩ := h
        rw [← h1]
        rfl
      · exact absurd h (by simp)

/-- C2: the claim says fit() on a freshly constructed phase model with at
least 3 in-window points runs least squares against the OBSERVED masked sizes
and afterwards get_params() yields the fitted vector.  The code instead
(a) crashes with AttributeError on the scenario of the repository's own
test_baseline (get_size() calls predict, which reads the never-assigned
_params attribute), and (b) whenever the optimizer is reachable at all,
hands it the model's own predictions rather than the observed sizes, as the
echo optimizer exposes: the returned parameters are the predictions
(0, 1, 2), not the stored sizes (5, 6, 7). -/
theorem fit_crashes_and_fits_predictions :
    (BaseFit.init .baseline tbTime tbSize (some (.val (-10))) (some (.val 0)) >>=
        fun st => FitBaseline.fitF eqId divergeCf st (some (.val 1)))
      = .error .attributeError ∧
    BaseFit.fitWithP0 eqId echoCf demoSustain none =
      .ok (BaseFit.setParams demoSustain [.val 0, .val 1, .val 2], []) ∧
    demoSustain.size = [.val 5, .val 6, .val 7] ∧
    ([PFloat.val 0, .val 1, .val 2] : List PFloat) ≠ [.val 5, .val 6, .val 7] :=
  ⟨by decide, by decide, by decide, by decide⟩

/-- C6: the claim says a window with fewer than 3 valid points makes fit()
warn, set NaN parameters and return.  On the code, fit() on a fresh model
with a 2-point window raises AttributeError instead (the insufficient-data
check itself evaluates get_size(), which reads the unset _params). -/
theorem small_window_fit_raises :
    (BaseFit.init .sustain [.val 0, .val 1] [.val 1, .val 2]
        (some (.val 0)) (some (.val 10)) >>=
        fun st => FitSustain.fitF eqId divergeCf st
          (some [.val (mkRat 1 200), .val (mkRat 7 10)]))
      = .error .attributeError := rfl

/-- C8: structural contract violations raise before any computation: a
length mismatch makes BaseFit.__init__ raise ValueError (before masking),
and a missing light stimulus makes PupilFit.__init__ raise ValueError before
any phase model is constructed or fitted. -/
theorem structural_validation_raises (phase : Phase) (time_data size : List PFloat)
    (s e : PFloat) (eq : ℚ → ℚ) (cf : Optimizer)
    (h : time_data.length ≠ size.length) :
    BaseFit.init phase time_data size (some s) (some e) =
      .error (.valueError "time and size must have the same length") ∧
    PupilFit.initV eq cf time_data size none =
      .error (.valueError "Light stimulus not set. Cannot setup fits.") := by
  constructor
  · unfold BaseFit.init
    simp [h]
  · rfl

/-- Witness for structural_validation_raises at a one-element time array and
an empty size array. -/
theorem structural_validation_raises_witness :
    ([PFloat.val 0] : List PFloat).length ≠ ([] : List PFloat).length ∧
    (BaseFit.init .baseline [.val 0] [] (some (.val 0)) (some (.val 1)) =
        .error (.valueError "time and size must have the same length") ∧
      PupilFit.initV eqId divergeCf [.val 0] [] none =
        .error (.valueError "Light stimulus not set. Cannot setup fits.")) :=
  ⟨by decide,
   structural_validation_raises .baseline [.val 0] [] (.val 0) (.val 1) eqId divergeCf
     (by decide)⟩

/-- C9 counterexample: immediately after construction, before any fit,
get_params() does not return a parameter vector at all: it raises
AttributeError, refuting the claim that a parameter vector is defined at
every point of the lifecycle. -/
theorem get_params_after_init_raises :
    (BaseFit.init .baseline [.val 0, .val 1, .val 2, .val 3]
        [.val 1, .val 1, .val 1, .val 1] (some (.val 0)) (some (.val 3)) >>=
        BaseFit.get_params)
      = .error .attributeError := rfl

/-- C3 counterexample: a sustain model constructed with window start 2 and
parameters (m, c) = (1, 0) predicts 1 * (0 + 2) + 0 = 2 at query time 0,
whereas the claimed convention (formula evaluated at t - start) gives
1 * (0 - 2) + 0 = -2: the offset is added, not subtracted. -/
theorem predict_offset_subtracted_cex :
    (BaseFit.init .sustain [.val 2, .val 3] [.val 0, .val 0]
        (some (.val 2)) (some (.val 3)) >>=
        fun st => BaseFit.predictScalar eqId
          (BaseFit.setParams st [.val 1, .val 0]) (.val 0))
      = .ok (.val 2) ∧
    Phase.modelFunction eqId .sustain [.val 1, .val 0] (.val 0 - .val 2) =
      .ok (.val (-2)) ∧
    PFloat.val 2 ≠ PFloat.val (-2) :=
  ⟨by decide, by decide, by decide⟩

/-- C3 amended: construction sets the stored time offset to the window start
s, and both predict and the fitting x-data ADD this offset to the time axis:
predict evaluates the phase model at (t + s), and the optimizer is fed
time_data mapped through (t + s); the formula is therefore expressed on the
shifted axis t + s, not in seconds since phase start. -/
theorem predict_adds_offset (eq : ℚ → ℚ) (phase : Phase)
    (time_data size : List PFloat) (s e : PFloat) (st : FitState)
    (ps : List PFloat) (t : PFloat)
    (hinit : BaseFit.init phase time_data size (some s) (some e) = .ok st) :
    st.timeOffset = s ∧
    BaseFit.predictScalar eq (BaseFit.setParams st ps) t =
      phase.modelFunction eq ps (t + s) ∧
    BaseFit.fitXdata st = st.time_data.map (fun u => u + s) := by
  obtain ⟨hph, _, _, hoff⟩ := BaseFit.init_ok_fields hinit
  refine ⟨hoff, ?_, ?_⟩
  · unfold BaseFit.predictScalar
    rw [BaseFit.get_params_setParams]
    show Phase.modelFunction eq (BaseFit.setParams st ps).phase ps
        (t + (BaseFit.setParams st ps).timeOffset) = _
    have h1 : (BaseFit.setParams st ps).phase = phase := by
      rw [BaseFit.setParams_phase, hph]
    have h2 : (BaseFit.setParams st ps).timeOffset = s := by
      show st.timeOffset = s
      exact hoff
    rw [h1, h2]
  · unfold BaseFit.fitXdata
    rw [hoff]

/-- Witness for predict_adds_offset on the counterexample scenario: the
offset stored is the window start 2 and prediction at 0 evaluates the model
at 0 + 2. -/
theorem predict_adds_offset_witness :
    BaseFit.init .sustain [.val 2, .val 3] [.val 0, .val 0]
        (some (.val 2)) (some (.val 3)) =
      .ok ⟨.sustain, .val 2, .val 3, [.val 2, .val 3], [.val 0, .val 0],
           .val 2, none⟩ ∧
    ((⟨.sustain, .val 2, .val 3, [.val 2, .val 3], [.val 0, .val 0],
        .val 2, none⟩ : FitState).timeOffset = .val 2 ∧
      BaseFit.predictScalar eqId
          (BaseFit.setParams
            ⟨.sustain, .val 2, .val 3, [.val 2, .val 3], [.val 0, .val 0],
             .val 2, none⟩ [.val 1, .val 0]) (.val 0) =
        Phase.modelFunction eqId .sustain [.val 1, .val 0] (.val 0 + .val 2) ∧
      BaseFit.fitXdata
          ⟨.sustain, .val 2, .val 3, [.val 2, .val 3], [.val 0, .val 0],
           .val 2, none⟩ =
        [.val 2, .val 3].map (fun u => u + .val 2)) :=
  ⟨rfl,
   predict_adds_offset eqId .sustain [.val 2, .val 3] [.val 0, .val 0]
     (.val 2) (.val 3) _ [.val 1, .val 0] (.val 0) rfl⟩

/-- C9 amended: once the fitting pipeline has assigned parameters (every
_set_params site passes either the optimizer result or a NaN fill of the
declared arity), get_params returns a defined vector whose length matches
get_param_names, provided the optimizer honours the scipy contract of one
fitted value per parameter.  Before the first assignment get_params raises
instead (see the counterexample). -/
theorem get_params_defined_after_fit (eq : ℚ → ℚ) (cf : Optimizer)
    (st st2 : FitState) (p0 : Option (List PFloat)) (ws : List Warning)
    (hcf : ∀ ph x y p popt, cf ph x y p = .success popt →
      popt.length = ph.paramNames.length)
    (hrun : BaseFit.fitWithP0 eq cf st p0 = .ok (st2, ws)) :
    ∃ v, BaseFit.get_params st2 = .ok v ∧
      v.length = st2.phase.paramNames.length := by
  have hph : st2.phase = st.phase := BaseFit.fitWithP0_ok_phase hrun
  unfold BaseFit.fitWithP0 at hrun
  cases hg : BaseFit.get_size eq st with
  | error e =>
    rw [hg] at hrun
    exact absurd hrun (by simp [Bind.bind, Except.bind])
  | ok ydata =>
    rw [hg] at hrun
    simp only [Bind.bind, Except.bind] at hrun
    split at hrun
    · simp only [Pure.pure, Except.pure, Except.ok.injEq, Prod.mk.injEq] at hrun
      obtain ⟨h1, _⟩ := hrun
      refine ⟨st.phase.nanFill, ?_, ?_⟩
      · rw [← h1]; rfl
      · rw [← h1]
        exact Phase.nanFill_length st.phase
    · split at hrun
      case _ popt hopt =>
        simp only [Pure.pure, Except.pure, Except.ok.injEq, Prod.mk.injEq] at hrun
        obtain ⟨h1, _⟩ := hrun
        refine ⟨popt, ?_, ?_⟩
        · rw [← h1]; rfl
        · rw [← h1]
          exact hcf st.phase (BaseFit.fitXdata st) ydata p0 popt hopt
      case _ =>
        simp only [Pure.pure, Except.pure, Except.ok.injEq, Prod.mk.injEq] at hrun
        obtain ⟨h1, _⟩ := hrun
        refine ⟨st.phase.nanFill, ?_, ?_⟩
        · rw [← h1]; rfl
        · rw [← h1]
          exact Phase.nanFill_length st.phase
      case _ => exact absurd hrun (by simp)

/-- Witness for get_params_defined_after_fit: an arity-honouring optimizer,
a sustain state with installed parameters, and a run of the fitting core. -/
theorem get_params_defined_after_fit_witness :
    (∀ ph x y p popt, arityCf ph x y p = OptOutcome.success popt →
      popt.length = ph.paramNames.length) ∧
    BaseFit.fitWithP0 eqId arityCf demoSustain none =
      .ok (BaseFit.setParams demoSustain Phase.sustain.nanFill, []) ∧
    ∃ v, BaseFit.get_params (BaseFit.setParams demoSustain Phase.sustain.nanFill) =
        .ok v ∧
      v.length =
        (BaseFit.setParams demoSustain Phase.sustain.nanFill).phase.paramNames.length :=
  ⟨fun ph _ _ _ popt h => by
      cases h
      exact (Phase.nanFill_length ph).symm ▸ Phase.nanFill_length ph,
   by decide,
   get_params_defined_after_fit eqId arityCf demoSustain
     (BaseFit.setParams demoSustain Phase.sustain.nanFill) none []
     (fun ph _ _ _ popt h => by
        cases h
        exact Phase.nanFill_length ph)
     (by decide)⟩

/-- C7: when the state is evaluable (parameters present so get_size succeeds),
the window holds at least 3 points, and the optimizer reports a convergence
failure (RuntimeError), every phase fit() returns normally with all-NaN
parameters of the declared arity plus a warning, the RuntimeError is not
propagated, and the resulting state is queryable through get_params. -/
theorem optimizer_failure_caught (eq : ℚ → ℚ) (cf : Optimizer) (st : FitState)
    (ys : List PFloat) (p0 : Option (List PFloat)) (be : Option PFloat)
    (hsize : BaseFit.get_size eq st = .ok ys)
    (hlen : 3 ≤ ys.length)
    (hcf : ∀ ph x y p, cf ph x y p = OptOutcome.runtimeError) :
    BaseFit.fitWithP0 eq cf st p0 =
      .ok (BaseFit.setParams st st.phase.nanFill, [Warning.fitFailed]) ∧
    FitSustain.fitF eq cf st p0 =
      .ok (BaseFit.setParams st st.phase.nanFill, [Warning.fitFailed]) ∧
    FitRedilation.fitF eq cf st p0 =
      .ok (BaseFit.setParams st st.phase.nanFill, [Warning.fitFailed]) ∧
    FitBaseline.fitF eq cf st be =
      .ok (BaseFit.setParams st st.phase.nanFill, [Warning.fitFailed]) ∧
    FitConstrict.fitF eq cf st p0 =
      .ok (BaseFit.setParams st st.phase.nanFill,
           [Warning.fitFailed, Warning.brokenConstrict]) ∧
    BaseFit.get_params (BaseFit.setParams st st.phase.nanFill) =
      .ok st.phase.nanFill := by
  have hcore : ∀ q0 : Option (List PFloat), BaseFit.fitWithP0 eq cf st q0 =
      .ok (BaseFit.setParams st st.phase.nanFill, [Warning.fitFailed]) := by
    intro q0
    unfold BaseFit.fitWithP0
    rw [hsize]
    simp only [Bind.bind, Except.bind]
    rw [if_neg (Nat.not_lt.mpr hlen), hcf]
    rfl
  refine ⟨hcore p0, hcore p0, hcore p0, hcore (be.map fun c => [c]), ?_, rfl⟩
  unfold FitConstrict.fitF
  rw [hcore p0]
  simp only [Bind.bind, Except.bind]
  rfl

/-- Witness for optimizer_failure_caught on the evaluable sustain demo state
with the always-diverging optimizer. -/
theorem optimizer_failure_caught_witness :
    BaseFit.get_size eqId demoSustain = .ok [.val 0, .val 1, .val 2] ∧
    3 ≤ ([PFloat.val 0, .val 1, .val 2] : List PFloat).length ∧
    (∀ ph x y p, divergeCf ph x y p = OptOutcome.runtimeError) ∧
    (BaseFit.fitWithP0 eqId divergeCf demoSustain none =
        .ok (BaseFit.setParams demoSustain demoSustain.phase.nanFill,
             [Warning.fitFailed]) ∧
      FitSustain.fitF eqId divergeCf demoSustain none =
        .ok (BaseFit.setParams demoSustain demoSustain.phase.nanFill,
             [Warning.fitFailed]) ∧
      FitRedilation.fitF eqId divergeCf demoSustain none =
        .ok (BaseFit.setParams demoSustain demoSustain.phase.nanFill,
             [Warning.fitFailed]) ∧
      FitBaseline.fitF eqId divergeCf demoSustain none =
        .ok (BaseFit.setParams demoSustain demoSustain.phase.nanFill,
             [Warning.fitFailed]) ∧
      FitConstrict.fitF eqId divergeCf demoSustain none =
        .ok (BaseFit.setParams demoSustain demoSustain.phase.nanFill,
             [Warning.fitFailed, Warning.brokenConstrict]) ∧
      BaseFit.get_params (BaseFit.setParams demoSustain demoSustain.phase.nanFill) =
        .ok demoSustain.phase.nanFill) :=
  ⟨by decide, by decide, fun _ _ _ _ => rfl,
   optimizer_failure_caught eqId divergeCf demoSustain [.val 0, .val 1, .val 2]
     none none (by decide) (by decide) (fun _ _ _ _ => rfl)⟩

/-- C5: whenever FitConstrict.fit returns, the constriction parameters have
been overwritten with NaN regardless of what the inner fit produced, and
whenever the composite fit-all step returns, the sustain parameters have
been overwritten with the all-NaN pair (both with a broken-implementation
warning in the source). -/
theorem constrict_and_sustain_fit_to_nan (eq : ℚ → ℚ) (cf : Optimizer)
    (stc bl cs su rd : FitState) (p0 : Option (List PFloat))
    (outc : FitState × List Warning)
    (outAll : (FitState × FitState × FitState × FitState) × List Warning)
    (hphc : stc.phase = .constrict) (hphs : su.phase = .sustain)
    (hc : FitConstrict.fitF eq cf stc p0 = .ok outc)
    (hall : PupilFit.fitAll eq cf bl cs su rd = .ok outAll) :
    outc.1.params = some [PFloat.nan, PFloat.nan, PFloat.nan] ∧
    outAll.1.2.2.1.params = some [PFloat.nan, PFloat.nan] := by
  constructor
  · unfold FitConstrict.fitF at hc
    cases hcw : BaseFit.fitWithP0 eq cf stc p0 with
    | error e =>
      rw [hcw] at hc
      exact absurd hc (by simp [Bind.bind, Except.bind])
    | ok out1 =>
      obtain ⟨st1, ws1⟩ := out1
      have hph1 : st1.phase = .constrict := by
        rw [BaseFit.fitWithP0_ok_phase hcw, hphc]
      rw [hcw] at hc
      simp only [Bind.bind, Except.bind, Pure.pure, Except.pure,
        Except.ok.injEq] at hc
      rw [← hc]
      show (BaseFit.setParams st1 st1.phase.nanFill).params = _
      rw [hph1]
      rfl
  · unfold PupilFit.fitAll at hall
    cases hb : FitBaseline.fitF eq cf bl (some (.val 1)) with
    | error e =>
      rw [hb] at hall
      exact absurd hall (by simp [Bind.bind, Except.bind])
    | ok outb =>
      obtain ⟨bl1, w1⟩ := outb
      rw [hb] at hall
      simp only [Bind.bind, Except.bind] at hall
      cases hcs : FitConstrict.fitF eq cf cs
          (some [.val (mkRat 1 2), .val (mkRat 1 5), .val 1]) with
      | error e =>
        rw [hcs] at hall
        exact absurd hall (by simp [Bind.bind, Except.bind])
      | ok outcs =>
        obtain ⟨cs1, w2⟩ := outcs
        rw [hcs] at hall
        simp only [Bind.bind, Except.bind] at hall
        cases hsu : FitSustain.fitF eq cf su
            (some [.val (mkRat 1 200), .val (mkRat 7 10)]) with
        | error e =>
          rw [hsu] at hall
          exact absurd hall (by simp [Bind.bind, Except.bind])
        | ok outsu =>
          obtain ⟨su1, w3⟩ := outsu
          have hphsu : su1.phase = .sustain := by
            rw [BaseFit.fitWithP0_ok_phase hsu, hphs]
          rw [hsu] at hall
          simp only [Bind.bind, Except.bind] at hall
          cases hrd : FitRedilation.fitF eq cf rd
              (some [.val (mkRat 7 10), .val (mkRat 3 5), .val 1]) with
          | error e =>
            rw [hrd] at hall
            exact absurd hall (by simp [Bind.bind, Except.bind])
          | ok outrd =>
            obtain ⟨rd1, w4⟩ := outrd
            rw [hrd] at hall
            simp only [Bind.bind, Except.bind, Pure.pure, Except.pure,
              Except.ok.injEq] at hall
            rw [← hall]
            show (BaseFit.setParams su1 su1.phase.nanFill).params = _
            rw [hphsu]
            rfl

/-- Witness for constrict_and_sustain_fit_to_nan: a concrete FitConstrict run
and a concrete complete fit-all run over evaluable states. -/
theorem constrict_and_sustain_fit_to_nan_witness :
    demoConstrictSt.phase = .constrict ∧ demoSustain.phase = .sustain ∧
    FitConstrict.fitF eqId divergeCf demoConstrictSt none =
      .ok (BaseFit.setParams demoConstrictSt Phase.constrict.nanFill,
           [Warning.notEnoughData, Warning.brokenConstrict]) ∧
    PupilFit.fitAll eqId divergeCf demoBaselineSt demoConstrictSt demoSustain
        demoRedilationSt =
      .ok ((BaseFit.setParams demoBaselineSt Phase.baseline.nanFill,
            BaseFit.setParams demoConstrictSt Phase.constrict.nanFill,
            BaseFit.setParams demoSustain Phase.sustain.nanFill,
            BaseFit.setParams demoRedilationSt Phase.redilation.nanFill),
           [Warning.notEnoughData, Warning.notEnoughData,
            Warning.brokenConstrict, Warning.fitFailed, Warning.sustainNaN,
            Warning.notEnoughData]) ∧
    ((BaseFit.setParams demoConstrictSt Phase.constrict.nanFill,
        ([Warning.notEnoughData, Warning.brokenConstrict] : List Warning)).1.params =
      some [PFloat.nan, PFloat.nan, PFloat.nan] ∧
    ((BaseFit.setParams demoBaselineSt Phase.baseline.nanFill,
        BaseFit.setParams demoConstrictSt Phase.constrict.nanFill,
        BaseFit.setParams demoSustain Phase.sustain.nanFill,
        BaseFit.setParams demoRedilationSt Phase.redilation.nanFill),
       [Warning.notEnoughData, Warning.notEnoughData, Warning.brokenConstrict,
        Warning.fitFailed, Warning.sustainNaN,
        Warning.notEnoughData]).1.2.2.1.params = some [PFloat.nan, PFloat.nan]) :=
  ⟨rfl, rfl, by decide, by decide,
   constrict_and_sustain_fit_to_nan eqId divergeCf demoConstrictSt
     demoBaselineSt demoConstrictSt demoSustain demoRedilationSt none _ _
     rfl rfl (by decide) (by decide)⟩

/-- C4: the claim (and the spec table and the repository's own
test_redilation) write the redilation model as -s * exp(k * x) + p with the
plateau reached as x tends to +infinity when k < 0; the code computes
-s * exp(-k * x) + p instead, so the two formulas disagree at s=1, k=1, p=0,
x=1, and with k < 0 (and s > 0) the code's predict diverges to -infinity as
x tends to +infinity; the code's plateau convention needs k > 0. -/
theorem redilation_model_sign_bug :
    FitRedilation.modelFunctionR 1 1 0 1 ≠ specRedilationModelR 1 1 0 1 ∧
    Filter.Tendsto (FitRedilation.modelFunctionR 1 (-1) 0)
      Filter.atTop Filter.atBot ∧
    Filter.Tendsto (FitRedilation.modelFunctionR 1 1 0)
      Filter.atTop (nhds 0) := by
  refine ⟨?_, ?_, ?_⟩
  · intro h
    simp only [FitRedilation.modelFunctionR, specRedilationModelR] at h
    norm_num at h
  · have h : FitRedilation.modelFunctionR 1 (-1) 0 = fun x => -Real.exp x := by
      funext x
      simp [FitRedilation.modelFunctionR]
    rw [h]
    simpa using Real.tendsto_exp_atTop
  · have h : FitRedilation.modelFunctionR 1 1 0 = fun x => -Real.exp (-x) := by
      funext x
      simp [FitRedilation.modelFunctionR]
    rw [h]
    have h2 := (Real.tendsto_exp_neg_atTop_nhds_zero).neg
    simpa using h2

/-- One masked position of PupilFit.predict on a singleton query. -/
lemma applyFit_singleton_true (eq : ℚ → ℚ) (st : FitState) (t a0 v : PFloat)
    (hm : PupilFit.maskB st t = true)
    (hp : BaseFit.predictScalar eq st t = .ok v) :
    PupilFit.applyFit eq st [t] [a0] = .ok [v] := by
  unfold PupilFit.applyFit PupilFit.applyFitList
  simp [hm, hp, Bind.bind, Except.bind, PupilFit.applyFitList, Pure.pure,
    Except.pure]

/-- One unmasked position of PupilFit.predict on a singleton query. -/
lemma applyFit_singleton_false (eq : ℚ → ℚ) (st : FitState) (t a0 : PFloat)
    (hm : PupilFit.maskB st t = false) :
    PupilFit.applyFit eq st [t] [a0] = .ok [a0] := by
  unfold PupilFit.applyFit
  simp [hm]

/-- Window fields of the four phase fits produced by _setup_fits. -/
lemma setupFits_ok_windows {time_data size : List PFloat} {a b : PFloat}
    {bl cs su rd : FitState}
    (h : PupilFit.setupFits time_data size a b = .ok (bl, cs, su, rd)) :
    (bl.start_time = .ninf ∧ bl.end_time = a) ∧
    (cs.start_time = a ∧ cs.end_time = b) ∧
    (su.start_time = a ∧ su.end_time = b) ∧
    (rd.start_time = b ∧ rd.end_time = .inf) := by
  unfold PupilFit.setupFits at h
  cases h1 : BaseFit.init .baseline time_data size (some .ninf) (some a) with
  | error e => rw [h1] at h; exact absurd h (by simp [Bind.bind, Except.bind])
  | ok st1 =>
    rw [h1] at h
    simp only [Bind.bind, Except.bind] at h
    cases h2 : BaseFit.init .constrict time_data size (some a) (some b) with
    | error e => rw [h2] at h; exact absurd h (by simp [Bind.bind, Except.bind])
    | ok st2 =>
      rw [h2] at h
      simp only [Bind.bind, Except.bind] at h
      cases h3 : BaseFit.init .sustain time_data size (some a) (some b) with
      | error e => rw [h3] at h; exact absurd h (by simp [Bind.bind, Except.bind])
      | ok st3 =>
        rw [h3] at h
        simp only [Bind.bind, Except.bind] at h
        cases h4 : BaseFit.init .redilation time_data size (some b) (some .inf) with
        | error e => rw [h4] at h; exact absurd h (by simp [Bind.bind, Except.bind])
        | ok st4 =>
          rw [h4] at h
          simp only [Bind.bind, Except.bind, Pure.pure, Except.pure,
            Except.ok.injEq, Prod.mk.injEq] at h
          obtain ⟨e1, e2, e3, e4⟩ := h
          subst e1; subst e2; subst e3; subst e4
          obtain ⟨_, hs1, he1, _⟩ := BaseFit.init_ok_fields h1
          obtain ⟨_, hs2, he2, _⟩ := BaseFit.init_ok_fields h2
          obtain ⟨_, hs3, he3, _⟩ := BaseFit.init_ok_fields h3
          obtain ⟨_, hs4, he4, _⟩ := BaseFit.init_ok_fields h4
          exact ⟨⟨hs1, he1⟩, ⟨hs2, he2⟩, ⟨hs3, he3⟩, ⟨hs4, he4⟩⟩

/-- The strict comparison on finite values reduces to the rational order. -/
lemma PFloat.blt_val (p q : ℚ) : PFloat.blt (.val p) (.val q) = decide (p < q) := rfl

/-- The non-strict comparison on finite values reduces to the rational order. -/
lemma PFloat.ble_val (p q : ℚ) : PFloat.ble (.val p) (.val q) = decide (p ≤ q) := rfl

/-- NaN is never strictly below anything. -/
lemma PFloat.blt_nan_left (x : PFloat) : PFloat.blt .nan x = false := by
  cases x <;> rfl

/-- A NaN query time matches no phase window of PupilFit.predict. -/
lemma maskB_nan (st : FitState) : PupilFit.maskB st .nan = false := by
  unfold PupilFit.maskB
  rw [PFloat.blt_nan_left, Bool.false_and]

/-- C1: on the windows _setup_fits derives from a stimulus interval (a, b)
with a <= b, PupilFit.predict dispatches a finite query time t by the
half-open membership tests applied in order baseline, constriction,
sustained, redilation, with later matches overwriting earlier ones: t < a
yields the baseline prediction, a <= t < b yields the SUSTAIN prediction
(the sustain block overwrites the identical constriction window, whose
predict is still evaluated), t >= b yields the redilation prediction, and a
NaN query time matches no window and keeps the NaN fill. -/
theorem pupilFit_predict_dispatch (eq : ℚ → ℚ) (a b q : ℚ)
    (time_data size : List PFloat) (bl cs su rd : FitState)
    (pb pc psu pr : List PFloat) (vb vc vs vr : PFloat)
    (hsetup : PupilFit.setupFits time_data size (.val a) (.val b) =
      .ok (bl, cs, su, rd))
    (hab : a ≤ b)
    (hvb : BaseFit.predictScalar eq (BaseFit.setParams bl pb) (.val q) = .ok vb)
    (hvc : BaseFit.predictScalar eq (BaseFit.setParams cs pc) (.val q) = .ok vc)
    (hvs : BaseFit.predictScalar eq (BaseFit.setParams su psu) (.val q) = .ok vs)
    (hvr : BaseFit.predictScalar eq (BaseFit.setParams rd pr) (.val q) = .ok vr) :
    (q < a →
      PupilFit.predict eq (BaseFit.setParams bl pb) (BaseFit.setParams cs pc)
        (BaseFit.setParams su psu) (BaseFit.setParams rd pr) [.val q] =
        .ok [vb]) ∧
    (a ≤ q → q < b →
      PupilFit.predict eq (BaseFit.setParams bl pb) (BaseFit.setParams cs pc)
        (BaseFit.setParams su psu) (BaseFit.setParams rd pr) [.val q] =
        .ok [vs]) ∧
    (b ≤ q →
      PupilFit.predict eq (BaseFit.setParams bl pb) (BaseFit.setParams cs pc)
        (BaseFit.setParams su psu) (BaseFit.setParams rd pr) [.val q] =
        .ok [vr]) ∧
    PupilFit.predict eq (BaseFit.setParams bl pb) (BaseFit.setParams cs pc)
      (BaseFit.setParams su psu) (BaseFit.setParams rd pr) [.nan] =
      .ok [.nan] := by
  obtain ⟨⟨hbs, hbe⟩, ⟨hcs1, hce⟩, ⟨hss, hse⟩, ⟨hrs, hre⟩⟩ :=
    setupFits_ok_windows hsetup
  have mBL : ∀ t, PupilFit.maskB (BaseFit.setParams bl pb) t =
      PupilFit.maskB bl t := fun _ => rfl
  have wBL : PupilFit.maskB (BaseFit.setParams bl pb) (.val q) =
      decide (q < a) := by
    rw [mBL]
    unfold PupilFit.maskB
    rw [hbs, hbe, PFloat.blt_val]
    show (decide (q < a) && PFloat.ble .ninf (.val q)) = decide (q < a)
    rw [show PFloat.ble .ninf (.val q) = true from rfl, Bool.and_true]
  have wCS : PupilFit.maskB (BaseFit.setParams cs pc) (.val q) =
      (decide (q < b) && decide (a ≤ q)) := by
    show PupilFit.maskB cs (.val q) = _
    unfold PupilFit.maskB
    rw [hcs1, hce, PFloat.blt_val, PFloat.ble_val]
  have wSU : PupilFit.maskB (BaseFit.setParams su psu) (.val q) =
      (decide (q < b) && decide (a ≤ q)) := by
    show PupilFit.maskB su (.val q) = _
    unfold PupilFit.maskB
    rw [hss, hse, PFloat.blt_val, PFloat.ble_val]
  have wRD : PupilFit.maskB (BaseFit.setParams rd pr) (.val q) =
      decide (b ≤ q) := by
    show PupilFit.maskB rd (.val q) = _
    unfold PupilFit.maskB
    rw [hrs, hre, PFloat.ble_val]
    show (PFloat.blt (.val q) .inf && decide (b ≤ q)) = decide (b ≤ q)
    rw [show PFloat.blt (.val q) .inf = true from rfl, Bool.true_and]
  refine ⟨?_, ?_, ?_, ?_⟩
  · intro hq
    have hm1 : PupilFit.maskB (BaseFit.setParams bl pb) (.val q) = true := by
      rw [wBL]; simp [hq]
    have hm2 : PupilFit.maskB (BaseFit.setParams cs pc) (.val q) = false := by
      rw [wCS]; simp [not_le.mpr hq]
    have hm3 : PupilFit.maskB (BaseFit.setParams su psu) (.val q) = false := by
      rw [wSU]; simp [not_le.mpr hq]
    have hm4 : PupilFit.maskB (BaseFit.setParams rd pr) (.val q) = false := by
      rw [wRD]; simp [not_le.mpr (lt_of_lt_of_le hq hab)]
    unfold PupilFit.predict
    simp only [List.map_cons, List.map_nil]
    rw [applyFit_singleton_true eq _ _ _ _ hm1 hvb]
    simp only [Bind.bind, Except.bind]
    rw [applyFit_singleton_false eq _ _ _ hm2]
    simp only [Bind.bind, Except.bind]
    rw [applyFit_singleton_false eq _ _ _ hm3]
    simp only [Bind.bind, Except.bind]
    rw [applyFit_singleton_false eq _ _ _ hm4]
  · intro hqa hqb
    have hm1 : PupilFit.maskB (BaseFit.setParams bl pb) (.val q) = false := by
      rw [wBL]; simp [not_lt.mpr hqa]
    have hm2 : PupilFit.maskB (BaseFit.setParams cs pc) (.val q) = true := by
      rw [wCS]; simp [hqa, hqb]
    have hm3 : PupilFit.maskB (BaseFit.setParams su psu) (.val q) = true := by
      rw [wSU]; simp [hqa, hqb]
    have hm4 : PupilFit.maskB (BaseFit.setParams rd pr) (.val q) = false := by
      rw [wRD]; simp [not_le.mpr hqb]
    unfold PupilFit.predict
    simp only [List.map_cons, List.map_nil]
    rw [applyFit_singleton_false eq _ _ _ hm1]
    simp only [Bind.bind, Except.bind]
    rw [applyFit_singleton_true eq _ _ _ _ hm2 hvc]
    simp only [Bind.bind, Except.bind]
    rw [applyFit_singleton_true eq _ _ _ _ hm3 hvs]
    simp only [Bind.bind, Except.bind]
    rw [applyFit_singleton_false eq _ _ _ hm4]
  · intro hqb
    have hqa : a ≤ q := le_trans hab hqb
    have hm1 : PupilFit.maskB (BaseFit.setParams bl pb) (.val q) = false := by
      rw [wBL]; simp [not_lt.mpr hqa]
    have hm2 : PupilFit.maskB (BaseFit.setParams cs pc) (.val q) = false := by
      rw [wCS]; simp [not_lt.mpr hqb]
    have hm3 : PupilFit.maskB (BaseFit.setParams su psu) (.val q) = false := by
      rw [wSU]; simp [not_lt.mpr hqb]
    have hm4 : PupilFit.maskB (BaseFit.setParams rd pr) (.val q) = true := by
      rw [wRD]; simp [hqb]
    unfold PupilFit.predict
    simp only [List.map_cons, List.map_nil]
    rw [applyFit_singleton_false eq _ _ _ hm1]
    simp only [Bind.bind, Except.bind]
    rw [applyFit_singleton_false eq _ _ _ hm2]
    simp only [Bind.bind, Except.bind]
    rw [applyFit_singleton_false eq _ _ _ hm3]
    simp only [Bind.bind, Except.bind]
    rw [applyFit_singleton_true eq _ _ _ _ hm4 hvr]
  · unfold PupilFit.predict
    simp only [List.map_cons, List.map_nil]
    rw [applyFit_singleton_false eq _ _ _ (maskB_nan _)]
    simp only [Bind.bind, Except.bind]
    rw [applyFit_singleton_false eq _ _ _ (maskB_nan _)]
    simp only [Bind.bind, Except.bind]
    rw [applyFit_singleton_false eq _ _ _ (maskB_nan _)]
    simp only [Bind.bind, Except.bind]
    rw [applyFit_singleton_false eq _ _ _ (maskB_nan _)]

/-- Witness for pupilFit_predict_dispatch at stimulus interval (1, 2) and
query time 3/2: the sustain prediction 8 wins over the evaluated
constriction prediction 5/2. -/
theorem pupilFit_predict_dispatch_witness :
    PupilFit.setupFits demoTime demoSize (.val 1) (.val 2) =
      .ok (demoBl, demoCs, demoSu, demoRd) ∧
    (1 : ℚ) ≤ 2 ∧
    BaseFit.predictScalar eqId (BaseFit.setParams demoBl [.val 5])
      (.val (mkRat 3 2)) = .ok (.val 5) ∧
    BaseFit.predictScalar eqId
      (BaseFit.setParams demoCs [.val 1, .val 0, .val 0])
      (.val (mkRat 3 2)) = .ok (.val (mkRat 5 2)) ∧
    BaseFit.predictScalar eqId (BaseFit.setParams demoSu [.val 2, .val 3])
      (.val (mkRat 3 2)) = .ok (.val 8) ∧
    BaseFit.predictScalar eqId
      (BaseFit.setParams demoRd [.val 1, .val 1, .val 5])
      (.val (mkRat 3 2)) = .ok (.val (mkRat 17 2)) ∧
    ((mkRat 3 2 < (1 : ℚ) →
      PupilFit.predict eqId (BaseFit.setParams demoBl [.val 5])
        (BaseFit.setParams demoCs [.val 1, .val 0, .val 0])
        (BaseFit.setParams demoSu [.val 2, .val 3])
        (BaseFit.setParams demoRd [.val 1, .val 1, .val 5])
        [.val (mkRat 3 2)] = .ok [.val 5]) ∧
    ((1 : ℚ) ≤ mkRat 3 2 → mkRat 3 2 < (2 : ℚ) →
      PupilFit.predict eqId (BaseFit.setParams demoBl [.val 5])
        (BaseFit.setParams demoCs [.val 1, .val 0, .val 0])
        (BaseFit.setParams demoSu [.val 2, .val 3])
        (BaseFit.setParams demoRd [.val 1, .val 1, .val 5])
        [.val (mkRat 3 2)] = .ok [.val 8]) ∧
    ((2 : ℚ) ≤ mkRat 3 2 →
      PupilFit.predict eqId (BaseFit.setParams demoBl [.val 5])
        (BaseFit.setParams demoCs [.val 1, .val 0, .val 0])
        (BaseFit.setParams demoSu [.val 2, .val 3])
        (BaseFit.setParams demoRd [.val 1, .val 1, .val 5])
        [.val (mkRat 3 2)] = .ok [.val (mkRat 17 2)]) ∧
    PupilFit.predict eqId (BaseFit.setParams demoBl [.val 5])
      (BaseFit.setParams demoCs [.val 1, .val 0, .val 0])
      (BaseFit.setParams demoSu [.val 2, .val 3])
      (BaseFit.setParams demoRd [.val 1, .val 1, .val 5])
      [.nan] = .ok [.nan]) :=
  ⟨by decide, by norm_num, by decide, by decide, by decide, by decide,
   pupilFit_predict_dispatch eqId 1 2 (mkRat 3 2) demoTime demoSize
     demoBl demoCs demoSu demoRd [.val 5] [.val 1, .val 0, .val 0]
     [.val 2, .val 3] [.val 1, .val 1, .val 5]
     (.val 5) (.val (mkRat 5 2)) (.val 8) (.val (mkRat 17 2))
     (by decide) (by norm_num) (by decide) (by decide) (by decide) (by decide)⟩

/-- Writing one buffer leaves every other buffer unchanged. -/
lemma Heap.read_write_ne (h : Heap) (a b : NpArray) (v : List PFloat)
    (hne : a.ref ≠ b.ref) : (h.write a v).read b = h.read b := by
  unfold Heap.write Heap.read
  rw [List.getD_eq_getElem?_getD, List.getD_eq_getElem?_getD,
    List.getElem?_set_ne hne]

/-- C10 counterexample: over a float64 source measurement, the composite
constructor's stored time_data buffer IS the measurement's own time buffer
(np.asarray does not copy float64 input), so an in-place write of
(9, 9, 9) to the source measurement's time buffer changes the fit's stored
time data from (0, 1, 2) to (9, 9, 9). -/
theorem composite_time_alias_cex :
    pfTimeReadback (PupilFit.initCoreH demoHeap demoMeas) demoMeas.timeArr
        [.val 9, .val 9, .val 9] =
      some ([.val 0, .val 1, .val 2], [.val 9, .val 9, .val 9]) ∧
    ([PFloat.val 0, .val 1, .val 2] : List PFloat) ≠
      [.val 9, .val 9, .val 9] :=
  ⟨by decide, by decide⟩

/-- C10 amended: the phase models snapshot their masked data as values
(boolean-mask indexing copies) and the composite deep-copies the measurement
it fits against into fresh buffers that later in-place writes to the source
measurement's buffers cannot touch; but the composite's own stored time_data
array aliases the source measurement's time buffer whenever the latter is
already float64, so in-place mutation of the source measurement's time
buffer is visible through the composite's stored time data. -/
theorem composite_copy_and_alias (h : Heap) (m : MeasurementH) (h2 : Heap)
    (pf : PupilFitCoreH) (v : List PFloat)
    (hwfT : m.timeArr.ref < h.bufs.length)
    (hwfS : m.sizeArr.ref < h.bufs.length)
    (hf64 : m.timeArr.f64 = true)
    (hrun : PupilFit.initCoreH h m = .ok (h2, pf)) :
    pf.timeArr = m.timeArr ∧
    pf.pmTime.ref ≠ m.timeArr.ref ∧
    pf.pmSize.ref ≠ m.sizeArr.ref ∧
    (Heap.write h2 m.timeArr v).read pf.pmTime = h2.read pf.pmTime ∧
    (Heap.write h2 m.sizeArr v).read pf.pmSize = h2.read pf.pmSize := by
  cases hst : m.stimulus with
  | none =>
    unfold PupilFit.initCoreH at hrun
    rw [hst] at hrun
    exact absurd hrun (by simp [PupilFit.checkStimulus, Bind.bind, Except.bind])
  | some ab =>
    unfold PupilFit.initCoreH at hrun
    rw [hst] at hrun
    simp only [PupilFit.checkStimulus, Bind.bind, Except.bind, npCopy,
      npAsarrayF64, Heap.alloc, hf64, if_true, Pure.pure, Except.pure] at hrun
    split at hrun
    · exact absurd hrun (by simp)
    · simp only [Except.ok.injEq, Prod.mk.injEq] at hrun
      obtain ⟨hh2, hpf⟩ := hrun
      have e1 : pf.pmTime.ref = h.bufs.length := by rw [← hpf]
      have e2 : pf.pmSize.ref = (h.bufs ++ [h.read m.timeArr]).length := by
        rw [← hpf]
      have e3 : pf.timeArr = m.timeArr := by rw [← hpf]
      have hlen2 : pf.pmSize.ref = h.bufs.length + 1 := by
        rw [e2, List.length_append, List.length_singleton]
      refine ⟨e3, ?_, ?_, ?_, ?_⟩
      · rw [e1]
        omega
      · rw [hlen2]
        omega
      · exact Heap.read_write_ne _ _ _ _ (by rw [e1]; omega)
      · exact Heap.read_write_ne _ _ _ _ (by rw [hlen2]; omega)

/-- Witness for composite_copy_and_alias over the demo heap: the composite
aliases buffer 0 (the measurement's float64 time buffer) while its deep
copies live in the fresh buffers 2 and 3, untouched by the write. -/
theorem composite_copy_and_alias_witness :
    demoMeas.timeArr.ref < demoHeap.bufs.length ∧
    demoMeas.sizeArr.ref < demoHeap.bufs.length ∧
    demoMeas.timeArr.f64 = true ∧
    PupilFit.initCoreH demoHeap demoMeas = .ok (demoHeapAfter, demoPf) ∧
    (demoPf.timeArr = demoMeas.timeArr ∧
      demoPf.pmTime.ref ≠ demoMeas.timeArr.ref ∧
      demoPf.pmSize.ref ≠ demoMeas.sizeArr.ref ∧
      (Heap.write demoHeapAfter demoMeas.timeArr
          [.val 9, .val 9, .val 9]).read demoPf.pmTime =
        demoHeapAfter.read demoPf.pmTime ∧
      (Heap.write demoHeapAfter demoMeas.sizeArr
          [.val 9, .val 9, .val 9]).read demoPf.pmSize =
        demoHeapAfter.read demoPf.pmSize) :=
  ⟨by decide, by decide, rfl, by decide,
   composite_copy_and_alias demoHeap demoMeas demoHeapAfter demoPf
     [.val 9, .val 9, .val 9] (by decide) (by decide) rfl (by decide)⟩
